import Mathlib

/-!
# Verification of the ruuvi beacon scanner (`main.go`)

Shallow embedding of the Go program in `src/main.go`: the payload decoder
`parsePacket`, the per-cycle collector `measure`, and the scheduling loop in
`main`.  Bytes are modelled as natural numbers, Go `float64` scaling is
modelled exactly over `ℚ` (the constants 0.005, 0.0025, 50000 and 100 are
taken at their decimal value), and the process-wide prometheus metrics are an
explicit record threaded through the functions that mutate them.
-/

namespace Ruuvi

/-- The process-wide metrics registered in `main.go` lines 18–46: the three
gauges (`temperature`, `humidity`, `pressure`), the two counters
(`measurement_count`, `measurement_err_count`), and the number of
observations recorded in the `measurement_duration` histogram (we track only
how many observations were made, not the wall-clock values). -/
structure MetricsState where
  tempGauge : ℚ
  humidityGauge : ℚ
  pressureGauge : ℚ
  numMeasurements : ℕ
  numMeasurementsErrs : ℕ
  measureTimeObservations : ℕ
deriving Repr, DecidableEq

/-- A fresh metrics state: gauges at 0, counters at 0, no observations. -/
def initState : MetricsState :=
  { tempGauge := 0, humidityGauge := 0, pressureGauge := 0,
    numMeasurements := 0, numMeasurementsErrs := 0,
    measureTimeObservations := 0 }

/-- Errors `parsePacket` can return (`main.go` lines 58–86).  The
`fieldDecodeFailed` branch models the `strconv.ParseInt` error returns; for a
2-byte slice `fmt.Sprintf("%%x", ...)` always produces a valid 4-digit hex
string whose value is below 2^63, so in the embedding that branch never
arises and the field reads are total. -/
inductive ParseError
  | unsupportedFormat
deriving Repr, DecidableEq

/-- Outcome of running `parsePacket`: normal return `nil` (`ok`), an error
return, or a Go runtime panic from an out-of-range slice such as `buf[1:3]`
on a buffer of length < 3. -/
inductive ParseOutcome
  | ok
  | err (e : ParseError)
  | panic
deriving Repr, DecidableEq

/-- `fmt.Sprintf("%%x", buf[i:i+2])` followed by `strconv.ParseInt(_, 16, 64)`
(`main.go` 62–63, 72–73, 82–83): Go's `%x` on a byte slice prints every byte
as two zero-padded hex digits, so parsing the 4-digit string back in base 16
yields the big-endian UNSIGNED value `b0*256 + b1` (always non-negative:
`ParseInt` sees no sign character). -/
def beU16 (b0 b1 : ℕ) : ℕ := b0 * 256 + b1

/-- `parsePacket` (`main.go` 52–105).  The Go function takes the raw buffer,
checks `buf[0] != 5`, then for each of temperature, humidity and pressure
slices two bytes, parses them, and immediately sets the corresponding gauge
before moving to the next field.  Slicing past the end of the buffer is a Go
runtime panic, modelled by the `panic` outcome; the gauges set before the
panicking access stay set, exactly as in Go. -/
def parsePacket (s : MetricsState) (buf : List ℕ) : MetricsState × ParseOutcome :=
  match buf with
  | [] => (s, .panic)
  | b0 :: rest =>
    if b0 ≠ 5 then (s, .err .unsupportedFormat)
    else
      match rest with
      | b1 :: b2 :: rest2 =>
        let s1 := { s with tempGauge := (beU16 b1 b2 : ℚ) * (5 / 1000) }
        match rest2 with
        | b3 :: b4 :: rest3 =>
          let s2 := { s1 with humidityGauge := (beU16 b3 b4 : ℚ) * (25 / 10000) }
          match rest3 with
          | b5 :: b6 :: _ =>
            ({ s2 with pressureGauge := ((beU16 b5 b6 : ℚ) + 50000) / 100 }, .ok)
          | _ => (s2, .panic)
        | _ => (s1, .panic)
      | _ => (s, .panic)

/-- What one scan cycle observed, abstracting the external BLE adapter
(`adapter.Scan` / `adapter.StopScan`).  Either the call to `adapter.Scan`
itself returns an error (`main.go` 134–136), or the callback found a
qualifying advertisement — name containing "Ruuvi" with manufacturer-data
entry 1177 — copied its payload, and requested the scan to stop; the flag
records whether `adapter.StopScan` failed (`main.go` 131–133). -/
inductive ScanScenario
  | startFailed
  | matched (payload : List ℕ) (stopScanFailed : Bool)
deriving Repr, DecidableEq

/-- Errors `measure` can return (`main.go` 107–146): the wrapped scan error,
the wrapped stop-scan error, or the wrapped `parsePacket` error. -/
inductive MeasureError
  | scanStartFailed
  | scanStopFailed
  | parseFailed (e : ParseError)
deriving Repr, DecidableEq

/-- Outcome of one `measure` call: `nil` return, an error return, or a
propagated runtime panic. -/
inductive MeasureOutcome
  | ok
  | err (e : MeasureError)
  | panic
deriving Repr, DecidableEq

/-- `buf := make([]byte, 32)` followed by `copy(buf, buffer)` (`main.go`
115, 128): a 32-byte zero-initialised buffer whose first
`min (payload.length) 32` bytes are overwritten by the matched payload. -/
def scanBuffer (payload : List ℕ) : List ℕ :=
  payload.take 32 ++ List.replicate (32 - min payload.length 32) 0

/-- The body of `measure` (`main.go` 107–146) without the deferred histogram
observation: return the scan error if scanning failed; otherwise return the
stop-scan error if stopping failed (discarding the copied buffer); otherwise
run `parsePacket` on the 32-byte buffer and wrap its error if any. -/
def measureCore (s : MetricsState) (sc : ScanScenario) : MetricsState × MeasureOutcome :=
  match sc with
  | .startFailed => (s, .err .scanStartFailed)
  | .matched payload stopFail =>
    if stopFail then (s, .err .scanStopFailed)
    else
      match parsePacket s (scanBuffer payload) with
      | (s2, .ok) => (s2, .ok)
      | (s2, .err e) => (s2, .err (.parseFailed e))
      | (s2, .panic) => (s2, .panic)

/-- `measure` (`main.go` 107–146).  The `defer` at lines 109–111 records one
`measurement_duration` observation whatever the body did — normal return,
error return, or panic unwinding — so the observation is applied uniformly
to the state `measureCore` produced. -/
def measure (s : MetricsState) (sc : ScanScenario) : MetricsState × MeasureOutcome :=
  let r := measureCore s sc
  ({ r.1 with measureTimeObservations := r.1.measureTimeObservations + 1 }, r.2)

/-- Events of the scheduling loop in `main` (`main.go` 162–173), in program
order: a measurement cycle with its success bit, a wait on the interval
ticker, a `log.Fatal` process termination, and an `fmt.Println` of a
steady-state error. -/
inductive SchedEvent
  | runCycle (ok : Bool)
  | wait
  | fatalExit
  | logError
deriving Repr, DecidableEq

/-- The steady-state `for range ticker.C` loop (`main.go` 169–173) over a
finite prefix of cycle outcomes: each iteration waits for the ticker, runs
`measure`, prints the error if it failed, and continues either way. -/
def steadyTrace : List Bool → List SchedEvent
  | [] => []
  | o :: rest =>
    SchedEvent.wait :: SchedEvent.runCycle o ::
      (if o then steadyTrace rest else SchedEvent.logError :: steadyTrace rest)

/-- The event trace of the scheduler part of `main` (`main.go` 162–173),
given the outcomes of the successive cycles: the initial `measure` runs
first with no preceding wait; `log.Fatal` terminates the process if it
fails; otherwise the ticker loop runs the remaining outcomes. -/
def mainTrace (outcomes : List Bool) : List SchedEvent :=
  match outcomes with
  | [] => []
  | first :: rest =>
    SchedEvent.runCycle first ::
      (if first then steadyTrace rest else [SchedEvent.fatalExit])

/-- The claim's reading of a 2-byte big-endian field as a SIGNED 16-bit
integer (refinement comparison; this follows the spec's words, not the
source). -/
def signed16 (b0 b1 : ℕ) : ℤ :=
  if b0 * 256 + b1 < 32768 then (b0 * 256 + b1 : ℤ) else (b0 * 256 + b1 : ℤ) - 65536

/-- The decoded triple the spec's words prescribe (refinement comparison):
signed fields scaled by 0.005, 0.0025 and the pressure offset. -/
def specDecodeTriple (b1 b2 b3 b4 b5 b6 : ℕ) : ℚ × ℚ × ℚ :=
  ((signed16 b1 b2 : ℚ) * (5 / 1000),
   (signed16 b3 b4 : ℚ) * (25 / 10000),
   ((signed16 b5 b6 : ℚ) + 50000) / 100)

/-! ## Helper lemmas -/

theorem parsePacket_preserves_counters (s : MetricsState) (buf : List ℕ) :
    (parsePacket s buf).1.numMeasurements = s.numMeasurements ∧
    (parsePacket s buf).1.numMeasurementsErrs = s.numMeasurementsErrs ∧
    (parsePacket s buf).1.measureTimeObservations = s.measureTimeObservations := by
  rcases buf with _ | ⟨b0, _ | ⟨b1, _ | ⟨b2, _ | ⟨b3, _ | ⟨b4, _ | ⟨b5, _ | ⟨b6, rest⟩⟩⟩⟩⟩⟩⟩ <;>
    (simp only [parsePacket]; try split) <;> simp

theorem measureCore_preserves_counters (s : MetricsState) (sc : ScanScenario) :
    (measureCore s sc).1.numMeasurements = s.numMeasurements ∧
    (measureCore s sc).1.numMeasurementsErrs = s.numMeasurementsErrs ∧
    (measureCore s sc).1.measureTimeObservations = s.measureTimeObservations := by
  rcases sc with _ | ⟨payload, stopFail⟩
  · simp [measureCore]
  · cases stopFail
    · have h := parsePacket_preserves_counters s (scanBuffer payload)
      rcases hp : parsePacket s (scanBuffer payload) with ⟨s2, o⟩
      rw [hp] at h
      rcases o <;> simp [measureCore, hp] <;> exact h
    · simp [measureCore]

theorem parsePacket_eq_of_cons7 (s : MetricsState)
    (b1 b2 b3 b4 b5 b6 : ℕ) (rest : List ℕ) :
    parsePacket s (5 :: b1 :: b2 :: b3 :: b4 :: b5 :: b6 :: rest) =
      ({ s with tempGauge := (beU16 b1 b2 : ℚ) * (5 / 1000),
                humidityGauge := (beU16 b3 b4 : ℚ) * (25 / 10000),
                pressureGauge := ((beU16 b5 b6 : ℚ) + 50000) / 100 },
       ParseOutcome.ok) := by
  simp [parsePacket]

/-! ## Claims -/

/-- C5: decoding the 7-byte buffer `05 01 F4 27 10 C3 50` succeeds and sets
temperature 2.50 °C (raw 0x01F4 = 500, ×0.005), humidity 25.00 %
(raw 0x2710 = 10000, ×0.0025) and pressure 1000.00 hPa
(raw 0xC350 = 50000, (+50000)/100). -/
theorem parsePacket_example_packet (s : MetricsState) :
    parsePacket s [5, 0x01, 0xF4, 0x27, 0x10, 0xC3, 0x50] =
      ({ s with tempGauge := 5 / 2, humidityGauge := 25, pressureGauge := 1000 },
       ParseOutcome.ok) := by
  rw [parsePacket_eq_of_cons7]
  norm_num [beU16]

/-- C6: for every buffer whose first byte is not 5, decoding fails with the
unsupported-format error, the state is returned unchanged (no gauge is
updated) and no field is extracted. -/
theorem parsePacket_unsupported_format (s : MetricsState) (b0 : ℕ) (rest : List ℕ)
    (h : b0 ≠ 5) :
    parsePacket s (b0 :: rest) = (s, ParseOutcome.err ParseError.unsupportedFormat) := by
  simp [parsePacket, h]

theorem parsePacket_unsupported_format_witness :
    parsePacket initState [4, 9, 9, 9, 9, 9, 9] =
      (initState, ParseOutcome.err ParseError.unsupportedFormat) :=
  parsePacket_unsupported_format initState 4 [9, 9, 9, 9, 9, 9] (by decide)

/-- C1 (counterexample): on the buffer `05 FF FF 00 00 00 00` the decoder's
temperature gauge is 65535 × 0.005 = 327.675 °C — the field is read as an
UNSIGNED big-endian 16-bit integer — whereas the claim's signed reading
prescribes −1 × 0.005 °C, so the decoded triple differs from the claimed
signed triple. -/
theorem parsePacket_signed_claim_false :
    ((parsePacket initState [5, 255, 255, 0, 0, 0, 0]).1.tempGauge,
     (parsePacket initState [5, 255, 255, 0, 0, 0, 0]).1.humidityGauge,
     (parsePacket initState [5, 255, 255, 0, 0, 0, 0]).1.pressureGauge) ≠
      specDecodeTriple 255 255 0 0 0 0 ∧
    (parsePacket initState [5, 255, 255, 0, 0, 0, 0]).1.tempGauge = 65535 * (5 / 1000) ∧
    (specDecodeTriple 255 255 0 0 0 0).1 = (-1) * (5 / 1000) := by
  have h := parsePacket_eq_of_cons7 initState 255 255 0 0 0 0 []
  refine ⟨?_, ?_, ?_⟩
  · rw [h]
    norm_num [specDecodeTriple, signed16, beU16, Prod.ext_iff]
  · rw [h]
    norm_num [beU16]
  · norm_num [specDecodeTriple, signed16]

/-- C1 (amended): for every buffer whose first byte is 5 and whose length is
at least 7, the decoder interprets bytes 1–2, 3–4 and 5–6 as big-endian
UNSIGNED 16-bit integers, and the decoded triple written to the gauges
equals (unsigned(bytes 1–2) × 0.005, unsigned(bytes 3–4) × 0.0025,
(unsigned(bytes 5–6) + 50000) / 100); in particular raw 0xFFFF yields
65535 × 0.005, not a negative value. -/
theorem parsePacket_unsigned_decode (s : MetricsState)
    (b1 b2 b3 b4 b5 b6 : ℕ) (rest : List ℕ) :
    parsePacket s (5 :: b1 :: b2 :: b3 :: b4 :: b5 :: b6 :: rest) =
      ({ s with tempGauge := (beU16 b1 b2 : ℚ) * (5 / 1000),
                humidityGauge := (beU16 b3 b4 : ℚ) * (25 / 10000),
                pressureGauge := ((beU16 b5 b6 : ℚ) + 50000) / 100 },
       ParseOutcome.ok) := by
  simp [parsePacket]

/-- C4 (counterexample): decoding is not side-effect free — running the
decoder on the example buffer from the all-zero metrics state changes the
shared metrics state (the decoder itself sets the gauges). -/
theorem parsePacket_mutates_state :
    (parsePacket initState [5, 1, 0xF4, 0x27, 0x10, 0xC3, 0x50]).1 ≠ initState := by
  rw [parsePacket_eq_of_cons7]
  intro hcontra
  have ht := congrArg MetricsState.tempGauge hcontra
  norm_num [initState, beU16] at ht

/-- C4 (amended): decoding has side effects on shared state — `parsePacket`
itself writes each decoded field to the corresponding gauge (temperature,
humidity, pressure) as it parses; the caller does not publish the decoded
values. -/
theorem parsePacket_sets_gauges_itself (s : MetricsState)
    (b1 b2 b3 b4 b5 b6 : ℕ) (rest : List ℕ) :
    (parsePacket s (5 :: b1 :: b2 :: b3 :: b4 :: b5 :: b6 :: rest)).1.tempGauge
        = (beU16 b1 b2 : ℚ) * (5 / 1000) ∧
    (parsePacket s (5 :: b1 :: b2 :: b3 :: b4 :: b5 :: b6 :: rest)).1.humidityGauge
        = (beU16 b3 b4 : ℚ) * (25 / 10000) ∧
    (parsePacket s (5 :: b1 :: b2 :: b3 :: b4 :: b5 :: b6 :: rest)).1.pressureGauge
        = ((beU16 b5 b6 : ℚ) + 50000) / 100 := by
  simp [parsePacket]

/-- C3 (code behaviour at the failing inputs): for every buffer whose first
byte is 5 and whose length is less than 7 the decoder does NOT return a
truncated-payload error — it performs an out-of-range slice and the run ends
in a Go runtime panic. -/
theorem parsePacket_short_buffer_panics (s : MetricsState) (buf : List ℕ)
    (h0 : buf.head? = some 5) (h7 : buf.length < 7) :
    (parsePacket s buf).2 = ParseOutcome.panic := by
  rcases buf with _ | ⟨b0, rest0⟩
  · simp at h0
  · simp only [List.head?_cons, Option.some.injEq] at h0
    subst h0
    rcases rest0 with _ | ⟨b1, _ | ⟨b2, _ | ⟨b3, _ | ⟨b4, _ | ⟨b5, _ | ⟨b6, rest⟩⟩⟩⟩⟩⟩ <;>
      first
        | (simp only [List.length_cons] at h7; omega)
        | simp [parsePacket]

theorem parsePacket_short_buffer_panics_witness :
    (parsePacket initState [5]).2 = ParseOutcome.panic :=
  parsePacket_short_buffer_panics initState [5] (by decide) (by decide)

/-- C2 (code behaviour): the success and failure counters are registered but
never touched — for every starting metrics state and every scan scenario
(success, scan-start failure, scan-stop failure, or decode failure), one
`measure` cycle leaves `measurement_count` and `measurement_err_count`
exactly as they were; neither counter is ever incremented. -/
theorem measure_counters_never_incremented (s : MetricsState) (sc : ScanScenario) :
    (measure s sc).1.numMeasurements = s.numMeasurements ∧
    (measure s sc).1.numMeasurementsErrs = s.numMeasurementsErrs := by
  have h := measureCore_preserves_counters s sc
  simp only [measure]
  exact ⟨h.1, h.2.1⟩

/-- C7: in every cycle where a qualifying advertisement was captured but
stopping the scan failed, `measure` returns the scan-stop error, the decoder
is never invoked, and no gauge or counter changes — the only state change is
the single deferred duration observation. -/
theorem measure_stop_failed_discards_match (s : MetricsState) (payload : List ℕ) :
    measure s (ScanScenario.matched payload true) =
      ({ s with measureTimeObservations := s.measureTimeObservations + 1 },
       MeasureOutcome.err MeasureError.scanStopFailed) := by
  simp [measure, measureCore]

/-- C9: every invocation of `measure` records exactly one observation in the
duration histogram, whatever the outcome — success, scan-start failure,
scan-stop failure, decode failure or panic. -/
theorem measure_observes_duration_once (s : MetricsState) (sc : ScanScenario) :
    (measure s sc).1.measureTimeObservations = s.measureTimeObservations + 1 := by
  have h := measureCore_preserves_counters s sc
  simp only [measure]
  exact congrArg (· + 1) h.2.2

/-- Recognises a measurement-cycle event in a scheduler trace. -/
def isRunCycle : SchedEvent → Bool
  | .runCycle _ => true
  | _ => false

theorem steadyTrace_no_fatal (rest : List Bool) :
    SchedEvent.fatalExit ∉ steadyTrace rest := by
  induction rest with
  | nil => simp [steadyTrace]
  | cons o t ih => rcases o <;> simp [steadyTrace] <;> exact ih

theorem steadyTrace_cycle_count (rest : List Bool) :
    (steadyTrace rest).countP isRunCycle = rest.length := by
  induction rest with
  | nil => simp [steadyTrace]
  | cons o t ih => rcases o <;> simp [steadyTrace, List.countP_cons, isRunCycle, ih]

/-- C8: the scheduler's first event is the startup measurement cycle — no
interval wait precedes it, and it is the only cycle before the first wait;
if that first cycle fails the trace is exactly that cycle followed by the
fatal process exit; if it succeeds, no fatal exit ever appears in the trace
and every one of the remaining scheduled outcomes is executed as a cycle
(one startup cycle plus one per steady-state outcome, failures included). -/
theorem mainTrace_startup_fatal_steady_nonfatal (first : Bool) (rest : List Bool) :
    (mainTrace (first :: rest)).head? = some (SchedEvent.runCycle first) ∧
    (first = false →
      mainTrace (first :: rest) = [SchedEvent.runCycle false, SchedEvent.fatalExit]) ∧
    (first = true →
      SchedEvent.fatalExit ∉ mainTrace (first :: rest) ∧
      (mainTrace (first :: rest)).countP isRunCycle = 1 + rest.length) := by
  refine ⟨by rcases first <;> simp [mainTrace], ?_, ?_⟩
  · rintro rfl
    simp [mainTrace]
  · rintro rfl
    constructor
    · simp only [mainTrace, if_true]
      intro hmem
      rcases List.mem_cons.mp hmem with h | h
      · exact SchedEvent.noConfusion h
      · exact steadyTrace_no_fatal rest h
    · simp [mainTrace, List.countP_cons, isRunCycle, steadyTrace_cycle_count]
      omega

theorem mainTrace_startup_fatal_steady_nonfatal_witness :
    (mainTrace [true, false]).head? = some (SchedEvent.runCycle true) ∧
    SchedEvent.fatalExit ∉ mainTrace [true, false] ∧
    (mainTrace [true, false]).countP isRunCycle = 2 := by
  have h := mainTrace_startup_fatal_steady_nonfatal true [false]
  exact ⟨h.1, (h.2.2 rfl).1, (h.2.2 rfl).2⟩

/-- C10: the cycle hands the decoder a fixed 32-byte zero-initialised buffer
into which the matched payload is copied, so for every matched payload
shorter than 7 bytes whose first byte is 5 (and a successful scan stop),
decoding succeeds with the missing raw bytes read as zero: the gauges get
the values computed from the zero-extended payload. -/
theorem measure_zero_pads_short_payload (s : MetricsState) (payload : List ℕ)
    (h0 : payload.head? = some 5) (h7 : payload.length < 7) :
    measure s (ScanScenario.matched payload false) =
      ({ s with
          tempGauge := (beU16 (payload.getD 1 0) (payload.getD 2 0) : ℚ) * (5 / 1000),
          humidityGauge := (beU16 (payload.getD 3 0) (payload.getD 4 0) : ℚ) * (25 / 10000),
          pressureGauge := ((beU16 (payload.getD 5 0) (payload.getD 6 0) : ℚ) + 50000) / 100,
          measureTimeObservations := s.measureTimeObservations + 1 },
       MeasureOutcome.ok) := by
  rcases payload with _ | ⟨b0, rest0⟩
  · simp at h0
  · simp only [List.head?_cons, Option.some.injEq] at h0
    subst h0
    rcases rest0 with _ | ⟨b1, _ | ⟨b2, _ | ⟨b3, _ | ⟨b4, _ | ⟨b5, _ | ⟨b6, rest⟩⟩⟩⟩⟩⟩ <;>
      first
        | (simp only [List.length_cons] at h7; omega)
        | rfl

theorem measure_zero_pads_short_payload_witness :
    (measure initState (ScanScenario.matched [5] false)).2 = MeasureOutcome.ok ∧
    (measure initState (ScanScenario.matched [5] false)).1.tempGauge = 0 ∧
    (measure initState (ScanScenario.matched [5] false)).1.humidityGauge = 0 ∧
    (measure initState (ScanScenario.matched [5] false)).1.pressureGauge = 500 := by
  have h := measure_zero_pads_short_payload initState [5] rfl (by decide)
  rw [h]
  refine ⟨rfl, ?_, ?_, ?_⟩ <;> norm_num [beU16]

end Ruuvi
